import Mathlib

/-!
Verification of the redirect-resolution proxy gateway in
`src/worker/worker.js` (Cloudflare Worker, default export `fetch` handler).

The worker is shallowly embedded: JS strings are Lean `String`s, the
platform's `Headers`, `URL` and `URLSearchParams` objects are modelled by
executable Lean functions over `List Char` / association lists, and the
ambient `fetch` capability is a parameter of the handler returning
`Except String FetchResponse` (an exception thrown by `fetch` is an
`Except.error` carrying the exception's message).
-/

set_option maxRecDepth 4000

namespace GeminiGrounding

/-! ## Character-list utilities (kernel-reducible models of JS string ops) -/

/-- Does the first list start with the second (JS `String.prototype.startsWith`)? -/
def charsStartWith : List Char → List Char → Bool
  | _, [] => true
  | [], _ :: _ => false
  | a :: as, p :: ps => a == p && charsStartWith as ps

/-- Does the first list contain the second as a contiguous run
(JS `String.prototype.includes`)? -/
def charsHaveSub : List Char → List Char → Bool
  | [], pat => pat.isEmpty
  | a :: ts, pat => charsStartWith (a :: ts) pat || charsHaveSub ts pat

/-- JS `s.startsWith(pre)`. -/
def strStarts (s pre : String) : Bool := charsStartWith s.data pre.data

/-- JS `s.includes(pat)`. -/
def strIncludes (s pat : String) : Bool := charsHaveSub s.data pat.data

/-- JS `s.slice(1)`: drop the first character. -/
def strDropOne (s : String) : String := String.mk (s.data.drop 1)

/-- ASCII-lowercase a string (used for case-insensitive header names). -/
def strLower (s : String) : String := String.mk (s.data.map Char.toLower)

/-- Split a character list at every occurrence of `c`
(JS `String.prototype.split` with a one-character separator). -/
def splitChar (c : Char) : List Char → List (List Char)
  | [] => [[]]
  | a :: t =>
    match splitChar c t with
    | [] => if a == c then [[], []] else [[a]]
    | h :: rs => if a == c then [] :: h :: rs else (a :: h) :: rs

/-- Split a character list at the first occurrence of `c`, if any. -/
def splitFirstChar (c : Char) : List Char → List Char × Option (List Char)
  | [] => ([], none)
  | a :: t =>
    if a == c then ([], some t)
    else
      let r := splitFirstChar c t
      (a :: r.1, r.2)

/-! ## Headers (WHATWG `Headers` fragment used by the worker)

Header names are case-insensitive; `set` replaces every existing entry
with the same (case-insensitive) name. -/

/-- Case-insensitive lookup in a header entry list. -/
def lookupCI (target : String) : List (String × String) → Option String
  | [] => none
  | p :: t => if strLower p.1 = strLower target then some p.2 else lookupCI target t

/-- Remove every entry whose name equals `target` case-insensitively. -/
def removeCI (target : String) : List (String × String) → List (String × String)
  | [] => []
  | p :: t => if strLower p.1 = strLower target then removeCI target t else p :: removeCI target t

/-- WHATWG `Headers`: an ordered collection of name/value pairs with
case-insensitive names. -/
structure Headers where
  entries : List (String × String)
deriving Repr, DecidableEq

/-- `headers.get(name)` (case-insensitive). -/
def Headers.get (h : Headers) (name : String) : Option String :=
  lookupCI name h.entries

/-- `headers.set(name, value)` (case-insensitive overwrite). -/
def Headers.set (h : Headers) (name value : String) : Headers :=
  ⟨(name, value) :: removeCI name h.entries⟩

/-! ## Query strings (WHATWG `URLSearchParams` fragment used by the worker) -/

/-- One `k=v` segment: key is the text before the first `=`, value the rest
(empty when there is no `=`). -/
def parsePair (seg : List Char) : String × String :=
  match splitFirstChar '=' seg with
  | (k, none) => (String.mk k, "")
  | (k, some v) => (String.mk k, String.mk v)

/-- Turn `&`-separated segments into pairs, skipping empty segments. -/
def pairsOfSegs : List (List Char) → List (String × String)
  | [] => []
  | seg :: t => if seg = [] then pairsOfSegs t else parsePair seg :: pairsOfSegs t

/-- Parse a raw query string (without the leading `?`) into name/value pairs. -/
def parseQueryString (qs : String) : List (String × String) :=
  pairsOfSegs (splitChar '&' qs.data)

/-- First value bound to `name` (exact match), as `searchParams.get(name)`. -/
def lookupParam (name : String) : List (String × String) → Option String
  | [] => none
  | p :: t => if p.1 = name then some p.2 else lookupParam name t

/-- `new URL(u).searchParams.get(name)` applied to a `search` component
(`""` or `"?..."`). -/
def searchParamsGet (search name : String) : Option String :=
  let qs := if strStarts search "?" then strDropOne search else search
  lookupParam name (parseQueryString qs)

/-! ## URL (model of the platform WHATWG `URL` parser)

Model of the fragment of `new URL(s)` / `searchParams.delete` / `toString()`
exercised by the worker: parsing fails (`none`, i.e. the constructor throws)
when the string has no valid scheme followed by `:`, or when an
`http`/`https` URL has an empty host. Path/host normalisation performed by
the real serializer is irrelevant to the claims and not modelled. -/

/-- Characters allowed in a URL scheme after the first one. -/
def schemeCharOk (c : Char) : Bool :=
  c.isAlpha || c.isDigit || c == '+' || c == '-' || c == '.'

/-- A valid URL scheme: a letter followed by letters, digits, `+`, `-`, `.`. -/
def validScheme (s : String) : Bool :=
  match s.data with
  | [] => false
  | c :: cs => c.isAlpha && cs.all schemeCharOk

/-- Schemes whose URLs carry an authority and require a nonempty host. -/
def isSpecialScheme (s : String) : Bool :=
  strLower s = "http" || strLower s = "https"

/-- Parsed URL: scheme, host+path text, query pairs, optional fragment. -/
structure URL where
  scheme : String
  hostPath : String
  query : List (String × String)
  fragment : Option String
deriving Repr, DecidableEq

/-- `new URL(s)`: `none` models the constructor throwing. -/
def URL.parse (s : String) : Option URL :=
  match splitFirstChar ':' s.data with
  | (_, none) => none
  | (sch, some rest) =>
    if validScheme (String.mk sch) then
      let bf := splitFirstChar '#' rest
      let pq := splitFirstChar '?' bf.1
      let query := parseQueryString (String.mk (pq.2.getD []))
      if isSpecialScheme (String.mk sch) then
        let hp := pq.1.dropWhile (fun c => c == '/')
        if hp = [] then none
        else some ⟨String.mk sch, String.mk hp, query, bf.2.map String.mk⟩
      else some ⟨String.mk sch, String.mk pq.1, query, bf.2.map String.mk⟩
    else none

/-- Serialize query pairs as `k=v&k=v&...`. -/
def joinAmp : List (String × String) → String
  | [] => ""
  | [p] => p.1 ++ "=" ++ p.2
  | p :: q :: t => p.1 ++ "=" ++ p.2 ++ "&" ++ joinAmp (q :: t)

/-- `url.toString()`. -/
def URL.render (u : URL) : String :=
  u.scheme ++ ":" ++ (if isSpecialScheme u.scheme then "//" else "") ++ u.hostPath ++
  (if u.query = [] then "" else "?" ++ joinAmp u.query) ++
  (match u.fragment with
   | none => ""
   | some f => "#" ++ f)

/-- Remove every query pair bound to `name` (exact match). -/
def removeParam (name : String) : List (String × String) → List (String × String)
  | [] => []
  | p :: t => if p.1 = name then removeParam name t else p :: removeParam name t

/-- `url.searchParams.delete(name)`. -/
def URL.deleteParam (u : URL) (name : String) : URL :=
  { u with query := removeParam name u.query }

/-! ## Requests and responses -/

/-- Inbound HTTP request as the worker sees it: method, headers, the
`pathname` and `search` components of `new URL(request.url)`, and body. -/
structure Request where
  method : String
  headers : Headers
  pathname : String
  search : String
  body : Option String
deriving Repr, DecidableEq

/-- Outbound request handed to the ambient `fetch`: the URL argument plus
the `fetchOptions` literal of worker.js lines 36–43 (method, headers,
redirect policy, and the body field — which worker.js never populates). -/
structure FetchRequest where
  url : String
  method : String
  headers : List (String × String)
  redirect : String
  body : Option String
deriving Repr, DecidableEq

/-- Upstream response produced by the ambient `fetch`: status, headers,
`response.url` (the terminal URL, `""` when the layer exposes none) and
the body stream. -/
structure FetchResponse where
  status : Nat
  headers : Headers
  url : String
  body : Option String
deriving Repr, DecidableEq

/-- Response returned by the worker. -/
structure Response where
  status : Nat
  headers : Headers
  body : Option String
deriving Repr, DecidableEq

/-! ## The worker handler (worker.js, `fetch`) -/

/-- The fixed outbound user-agent string (worker.js line 39). -/
def googlebotUA : String :=
  "Mozilla/5.0 (compatible; Googlebot/2.1; +http://www.google.com/bot.html)"

/-- The reserved mode query parameter's name. -/
def modeParamName : String := "__proxy_redirect_mode"

/-- The marker searched for by `targetUrl.includes(...)` (worker.js line 27). -/
def modeParamMarker : String := "__proxy_redirect_mode="

/-- Preflight response for `OPTIONS` (worker.js lines 3–11); `new Response`
defaults the status to 200. -/
def preflightResponse : Response :=
  { status := 200,
    headers := ⟨[("Access-Control-Allow-Origin", "*"),
                 ("Access-Control-Allow-Methods", "GET, HEAD, POST, OPTIONS"),
                 ("Access-Control-Allow-Headers", "Content-Type, X-Final-Url, X-Proxy-Manual-Redirect")]⟩,
    body := none }

/-- 400 response for a rejected target (worker.js lines 18–22). -/
def invalidTargetResponse : Response :=
  { status := 400,
    headers := ⟨[("Access-Control-Allow-Origin", "*")]⟩,
    body := some "Invalid URL. Usage: /https://example.com" }

/-- 500 response built by the catch block (worker.js lines 73–78). -/
def errorResponse (msg : String) : Response :=
  { status := 500,
    headers := ⟨[("Access-Control-Allow-Origin", "*")]⟩,
    body := some ("Error: " ++ msg) }

/-- `url.pathname.slice(1) + url.search` (worker.js line 16). -/
def candidateTarget (req : Request) : String :=
  strDropOne req.pathname ++ req.search

/-- worker.js lines 24–25: manual mode iff the `X-Proxy-Manual-Redirect`
header is `"true"` or the reserved query parameter equals `"manual"`. -/
def isManualMode (req : Request) : Bool :=
  (req.headers.get "X-Proxy-Manual-Redirect" == some "true") ||
  (searchParamsGet req.search modeParamName == some "manual")

/-- worker.js lines 27–34: if the candidate contains the marker, re-parse
it, delete the reserved parameter and reserialize; a parse failure is
swallowed and the candidate is kept unmodified. -/
def strippedTarget (req : Request) : String :=
  let t := candidateTarget req
  if strIncludes t modeParamMarker then
    match URL.parse t with
    | some u => (u.deleteParam modeParamName).render
    | none => t
  else t

/-- The outbound request dispatched by worker.js line 44 with the
`fetchOptions` of lines 36–43 (note: no body field is set). -/
def outboundRequest (req : Request) : FetchRequest :=
  { url := strippedTarget req,
    method := req.method,
    headers := [("User-Agent", googlebotUA)],
    redirect := if isManualMode req then "manual" else "follow",
    body := none }

/-- worker.js lines 46–48: copy upstream headers, then set the CORS
allow-all and exposure headers. -/
def baseHeaders (resp : FetchResponse) : Headers :=
  (resp.headers.set "Access-Control-Allow-Origin" "*").set
    "Access-Control-Expose-Headers" "X-Final-Url, Location"

/-- worker.js lines 50–58 (manual mode): on a 3xx whose `Location` header
is truthy — `if (location)` in JS, false for both null and the empty
string — set `X-Final-Url` to it; on a 3xx with an absent or empty-valued
`Location` set nothing; on a non-3xx set `X-Final-Url` to the target URL. -/
def manualHeaders (targetUrl : String) (resp : FetchResponse) : Headers :=
  if 300 ≤ resp.status ∧ resp.status < 400 then
    match resp.headers.get "Location" with
    | some loc => if loc = "" then baseHeaders resp else (baseHeaders resp).set "X-Final-Url" loc
    | none => baseHeaders resp
  else (baseHeaders resp).set "X-Final-Url" targetUrl

/-- worker.js lines 46–71: compose the outbound response from the upstream
one, setting `X-Final-Url` according to the mode; status and body pass
through. In follow mode `response.url || targetUrl` falls back to the
target when `response.url` is the empty string. -/
def composeResponse (manual : Bool) (targetUrl : String) (resp : FetchResponse) : Response :=
  if manual then
    { status := resp.status, headers := manualHeaders targetUrl resp, body := resp.body }
  else
    { status := resp.status,
      headers := (baseHeaders resp).set "X-Final-Url"
                   (if resp.url = "" then targetUrl else resp.url),
      body := resp.body }

/-- The whole handler (worker.js `fetch`). The second component records the
outbound request handed to the ambient `fetch`, `none` when no outbound
call is made. -/
def handle (upstream : FetchRequest → Except String FetchResponse) (req : Request) :
    Response × Option FetchRequest :=
  if req.method = "OPTIONS" then
    (preflightResponse, none)
  else if strStarts (candidateTarget req) "http" = false then
    (invalidTargetResponse, none)
  else
    let freq := outboundRequest req
    match upstream freq with
    | Except.error msg => (errorResponse msg, some freq)
    | Except.ok resp => (composeResponse (isManualMode req) (strippedTarget req) resp, some freq)

/-! ## Helper lemmas -/

/-- Removing entries under one (case-insensitive) name does not change
lookup under a different name. -/
theorem lookupCI_removeCI (n m : String) (hm : strLower n ≠ strLower m)
    (l : List (String × String)) : lookupCI m (removeCI n l) = lookupCI m l := by
  induction l with
  | nil => rfl
  | cons p t ih =>
    by_cases hp : strLower p.1 = strLower n
    · have hpm : ¬ strLower p.1 = strLower m := fun hc => hm (hp.symm.trans hc)
      simp only [removeCI, lookupCI, if_pos hp, if_neg hpm, ih]
    · simp only [removeCI, lookupCI, if_neg hp, ih]

/-- `headers.set` followed by `headers.get`: the freshly set value under the
same (case-insensitive) name, the old lookup under any other name. -/
theorem headers_get_set (h : Headers) (n v m : String) :
    (h.set n v).get m = if strLower n = strLower m then some v else h.get m := by
  by_cases hm : strLower n = strLower m
  · simp only [Headers.get, Headers.set, lookupCI, if_pos hm]
  · simp only [Headers.get, Headers.set, lookupCI, if_neg hm]
    exact lookupCI_removeCI n m hm h.entries

theorem ne_expose_acao :
    ¬ strLower "Access-Control-Expose-Headers" = strLower "Access-Control-Allow-Origin" := by
  decide

theorem ne_xfu_acao :
    ¬ strLower "X-Final-Url" = strLower "Access-Control-Allow-Origin" := by decide

theorem ne_expose_xfu :
    ¬ strLower "Access-Control-Expose-Headers" = strLower "X-Final-Url" := by decide

theorem ne_acao_xfu :
    ¬ strLower "Access-Control-Allow-Origin" = strLower "X-Final-Url" := by decide

/-- The composed base headers always carry the CORS allow-all header. -/
theorem baseHeaders_acao (resp : FetchResponse) :
    (baseHeaders resp).get "Access-Control-Allow-Origin" = some "*" := by
  unfold baseHeaders
  rw [headers_get_set, if_neg ne_expose_acao, headers_get_set, if_pos rfl]

/-- The composed base headers leave `X-Final-Url` as the upstream sent it. -/
theorem baseHeaders_xfu (resp : FetchResponse) :
    (baseHeaders resp).get "X-Final-Url" = resp.headers.get "X-Final-Url" := by
  unfold baseHeaders
  rw [headers_get_set, if_neg ne_expose_xfu, headers_get_set, if_neg ne_acao_xfu]

/-- Every composed (success-path) response carries the CORS allow-all header. -/
theorem composeResponse_acao (manual : Bool) (t : String) (resp : FetchResponse) :
    (composeResponse manual t resp).headers.get "Access-Control-Allow-Origin" = some "*" := by
  unfold composeResponse
  cases manual
  · rw [if_neg (by simp)]
    show ((baseHeaders resp).set "X-Final-Url" _).get _ = _
    rw [headers_get_set, if_neg ne_xfu_acao]
    exact baseHeaders_acao resp
  · rw [if_pos rfl]
    show (manualHeaders t resp).get _ = _
    unfold manualHeaders
    by_cases h3 : 300 ≤ resp.status ∧ resp.status < 400
    · rw [if_pos h3]
      cases hloc : resp.headers.get "Location" with
      | none => exact baseHeaders_acao resp
      | some loc =>
        show (if loc = "" then baseHeaders resp
              else (baseHeaders resp).set "X-Final-Url" loc).get "Access-Control-Allow-Origin"
          = some "*"
        by_cases hl : loc = ""
        · rw [if_pos hl]
          exact baseHeaders_acao resp
        · rw [if_neg hl, headers_get_set, if_neg ne_xfu_acao]
          exact baseHeaders_acao resp
    · rw [if_neg h3, headers_get_set, if_neg ne_xfu_acao]
      exact baseHeaders_acao resp

/-- Branch lemma: a dispatched request whose upstream call throws yields the
catch-block response. -/
theorem handle_err (upstream : FetchRequest → Except String FetchResponse) (req : Request)
    (msg : String)
    (h1 : req.method ≠ "OPTIONS")
    (h2 : strStarts (candidateTarget req) "http" = true)
    (h3 : upstream (outboundRequest req) = Except.error msg) :
    handle upstream req = (errorResponse msg, some (outboundRequest req)) := by
  unfold handle
  rw [if_neg h1, if_neg (by simp [h2])]
  simp only [h3]

/-- Branch lemma: a dispatched request whose upstream call succeeds yields
the composed response. -/
theorem handle_ok (upstream : FetchRequest → Except String FetchResponse) (req : Request)
    (resp : FetchResponse)
    (h1 : req.method ≠ "OPTIONS")
    (h2 : strStarts (candidateTarget req) "http" = true)
    (h3 : upstream (outboundRequest req) = Except.ok resp) :
    handle upstream req =
      (composeResponse (isManualMode req) (strippedTarget req) resp,
       some (outboundRequest req)) := by
  unfold handle
  rw [if_neg h1, if_neg (by simp [h2])]
  simp only [h3]

/-- Branch lemma: every non-`OPTIONS` request whose candidate passes the
prefix check results in exactly the outbound request `outboundRequest req`. -/
theorem handle_dispatches (upstream : FetchRequest → Except String FetchResponse)
    (req : Request)
    (h1 : req.method ≠ "OPTIONS")
    (h2 : strStarts (candidateTarget req) "http" = true) :
    (handle upstream req).2 = some (outboundRequest req) := by
  cases hu : upstream (outboundRequest req) with
  | error m => rw [handle_err upstream req m h1 h2 hu]
  | ok r => rw [handle_ok upstream req r h1 h2 hu]

/-- After `removeParam name`, no pair is bound to `name`. -/
theorem removeParam_ne (name : String) (l : List (String × String)) :
    ∀ p ∈ removeParam name l, p.1 ≠ name := by
  induction l with
  | nil => intro p hp; simp [removeParam] at hp
  | cons a t ih =>
    intro p hp
    by_cases ha : a.1 = name
    · rw [removeParam, if_pos ha] at hp
      exact ih p hp
    · rw [removeParam, if_neg ha] at hp
      rcases List.mem_cons.mp hp with h | h
      · rw [h]; exact ha
      · exact ih p h

/-- Manual mode, 3xx with a truthy (non-empty) `Location`: `X-Final-Url`
is that location. -/
theorem manualHeaders_xfu_location (t : String) (resp : FetchResponse) (loc : String)
    (h5 : 300 ≤ resp.status ∧ resp.status < 400)
    (h6 : resp.headers.get "Location" = some loc)
    (h7 : loc ≠ "") :
    (manualHeaders t resp).get "X-Final-Url" = some loc := by
  unfold manualHeaders
  rw [if_pos h5, h6]
  show (if loc = "" then baseHeaders resp
        else (baseHeaders resp).set "X-Final-Url" loc).get "X-Final-Url" = some loc
  rw [if_neg h7, headers_get_set, if_pos rfl]

/-- Manual mode, 3xx without a `Location`: `X-Final-Url` is left untouched
(it is whatever the upstream response itself carried under that name). -/
theorem manualHeaders_xfu_noloc (t : String) (resp : FetchResponse)
    (h5 : 300 ≤ resp.status ∧ resp.status < 400)
    (h6 : resp.headers.get "Location" = none) :
    (manualHeaders t resp).get "X-Final-Url" = resp.headers.get "X-Final-Url" := by
  unfold manualHeaders
  rw [if_pos h5, h6]
  exact baseHeaders_xfu resp

/-- Manual mode, non-3xx: `X-Final-Url` is the target URL. -/
theorem manualHeaders_xfu_non3xx (t : String) (resp : FetchResponse)
    (h5 : ¬ (300 ≤ resp.status ∧ resp.status < 400)) :
    (manualHeaders t resp).get "X-Final-Url" = some t := by
  unfold manualHeaders
  rw [if_neg h5, headers_get_set, if_pos rfl]

/-! ## Claims -/

/-- Claim C8: every inbound `OPTIONS` request, regardless of path, gets an
empty body, a success (200) status, and the three CORS headers
(allow-origin, allow-methods, allow-headers), and no outbound fetch is
performed. -/
theorem c8_options_preflight (upstream : FetchRequest → Except String FetchResponse)
    (req : Request) (h : req.method = "OPTIONS") :
    (handle upstream req).2 = none ∧
    (handle upstream req).1.body = none ∧
    (handle upstream req).1.status = 200 ∧
    (handle upstream req).1.headers.get "Access-Control-Allow-Origin" = some "*" ∧
    (handle upstream req).1.headers.get "Access-Control-Allow-Methods"
      = some "GET, HEAD, POST, OPTIONS" ∧
    (handle upstream req).1.headers.get "Access-Control-Allow-Headers"
      = some "Content-Type, X-Final-Url, X-Proxy-Manual-Redirect" := by
  unfold handle
  rw [if_pos h]
  exact ⟨rfl, rfl, rfl, by decide, by decide, by decide⟩

/-- Witness for C8 at a concrete `OPTIONS` request. -/
theorem c8_options_preflight_witness :
    (⟨"OPTIONS", ⟨[]⟩, "/anything", "", none⟩ : Request).method = "OPTIONS" ∧
    ((handle (fun _ => Except.error "net") ⟨"OPTIONS", ⟨[]⟩, "/anything", "", none⟩).2 = none ∧
     (handle (fun _ => Except.error "net") ⟨"OPTIONS", ⟨[]⟩, "/anything", "", none⟩).1.body = none ∧
     (handle (fun _ => Except.error "net") ⟨"OPTIONS", ⟨[]⟩, "/anything", "", none⟩).1.status = 200 ∧
     (handle (fun _ => Except.error "net") ⟨"OPTIONS", ⟨[]⟩, "/anything", "", none⟩).1.headers.get
        "Access-Control-Allow-Origin" = some "*" ∧
     (handle (fun _ => Except.error "net") ⟨"OPTIONS", ⟨[]⟩, "/anything", "", none⟩).1.headers.get
        "Access-Control-Allow-Methods" = some "GET, HEAD, POST, OPTIONS" ∧
     (handle (fun _ => Except.error "net") ⟨"OPTIONS", ⟨[]⟩, "/anything", "", none⟩).1.headers.get
        "Access-Control-Allow-Headers" = some "Content-Type, X-Final-Url, X-Proxy-Manual-Redirect") :=
  ⟨rfl, c8_options_preflight (fun _ => Except.error "net") ⟨"OPTIONS", ⟨[]⟩, "/anything", "", none⟩ rfl⟩

/-- Claim C9: every response produced by the handler, on every control-flow
path, carries `Access-Control-Allow-Origin: *`. -/
theorem c9_cors_all_paths (upstream : FetchRequest → Except String FetchResponse)
    (req : Request) :
    (handle upstream req).1.headers.get "Access-Control-Allow-Origin" = some "*" := by
  by_cases h1 : req.method = "OPTIONS"
  · unfold handle
    rw [if_pos h1]
    decide
  · by_cases h2 : strStarts (candidateTarget req) "http" = true
    · cases hu : upstream (outboundRequest req) with
      | error m =>
        rw [handle_err upstream req m h1 h2 hu]
        rfl
      | ok r =>
        rw [handle_ok upstream req r h1 h2 hu]
        exact composeResponse_acao (isManualMode req) (strippedTarget req) r
    · have h2f : strStarts (candidateTarget req) "http" = false := by
        cases hb : strStarts (candidateTarget req) "http"
        · rfl
        · exact absurd hb h2
      unfold handle
      rw [if_neg h1, if_pos h2f]
      decide

/-- Claim C4 (amended): the handler rejects with status 400, the plain-text
usage hint, and no outbound fetch exactly when the raw candidate does not
start with the four characters `http`; the check is this literal prefix,
not `http://`-or-`https://`. -/
theorem c4_invalid_target (upstream : FetchRequest → Except String FetchResponse)
    (req : Request)
    (h1 : req.method ≠ "OPTIONS")
    (h2 : strStarts (candidateTarget req) "http" = false) :
    (handle upstream req).1.status = 400 ∧
    (handle upstream req).1.body = some "Invalid URL. Usage: /https://example.com" ∧
    (handle upstream req).2 = none := by
  unfold handle
  rw [if_neg h1, if_pos h2]
  exact ⟨rfl, rfl, rfl⟩

/-- Witness for C4 (amended) at the spec's own example path `/not-a-url`. -/
theorem c4_invalid_target_witness :
    strStarts (candidateTarget ⟨"GET", ⟨[]⟩, "/not-a-url", "", none⟩) "http" = false ∧
    (handle (fun _ => Except.error "net") ⟨"GET", ⟨[]⟩, "/not-a-url", "", none⟩).1.status = 400 ∧
    (handle (fun _ => Except.error "net") ⟨"GET", ⟨[]⟩, "/not-a-url", "", none⟩).1.body
      = some "Invalid URL. Usage: /https://example.com" ∧
    (handle (fun _ => Except.error "net") ⟨"GET", ⟨[]⟩, "/not-a-url", "", none⟩).2 = none :=
  ⟨by decide,
   (c4_invalid_target (fun _ => Except.error "net") ⟨"GET", ⟨[]⟩, "/not-a-url", "", none⟩
     (by decide) (by decide)).1,
   (c4_invalid_target (fun _ => Except.error "net") ⟨"GET", ⟨[]⟩, "/not-a-url", "", none⟩
     (by decide) (by decide)).2.1,
   (c4_invalid_target (fun _ => Except.error "net") ⟨"GET", ⟨[]⟩, "/not-a-url", "", none⟩
     (by decide) (by decide)).2.2⟩

/-- Counterexample to C4 as stated: the decoded path value `httpfoo` starts
with neither `http://` nor `https://`, yet the handler does not answer 400
— it dispatches `httpfoo` upstream and (the fetch failing) answers 500. -/
theorem c4_counterexample :
    candidateTarget ⟨"GET", ⟨[]⟩, "/httpfoo", "", none⟩ = "httpfoo" ∧
    strStarts "httpfoo" "http://" = false ∧
    strStarts "httpfoo" "https://" = false ∧
    (handle (fun _ => Except.error "Fetch failed") ⟨"GET", ⟨[]⟩, "/httpfoo", "", none⟩).1.status
      = 500 ∧
    (handle (fun _ => Except.error "Fetch failed") ⟨"GET", ⟨[]⟩, "/httpfoo", "", none⟩).2
      = some (outboundRequest ⟨"GET", ⟨[]⟩, "/httpfoo", "", none⟩) := by
  decide

/-- Claim C7: when the upstream dispatch throws, the handler answers 500
with the failure's message in the body, and the error response carries the
CORS allow-all header. -/
theorem c7_error_boundary (upstream : FetchRequest → Except String FetchResponse)
    (req : Request) (msg : String)
    (h1 : req.method ≠ "OPTIONS")
    (h2 : strStarts (candidateTarget req) "http" = true)
    (h3 : upstream (outboundRequest req) = Except.error msg) :
    (handle upstream req).1.status = 500 ∧
    (handle upstream req).1.body = some ("Error: " ++ msg) ∧
    (handle upstream req).1.headers.get "Access-Control-Allow-Origin" = some "*" := by
  rw [handle_err upstream req msg h1 h2 h3]
  exact ⟨rfl, rfl, rfl⟩

/-- Witness for C7 at a concrete request whose upstream call throws. -/
theorem c7_error_boundary_witness :
    strStarts (candidateTarget ⟨"GET", ⟨[]⟩, "/http://example.com/x", "", none⟩) "http" = true ∧
    (handle (fun _ => Except.error "boom") ⟨"GET", ⟨[]⟩, "/http://example.com/x", "", none⟩).1.status
      = 500 ∧
    (handle (fun _ => Except.error "boom") ⟨"GET", ⟨[]⟩, "/http://example.com/x", "", none⟩).1.body
      = some ("Error: " ++ "boom") ∧
    (handle (fun _ => Except.error "boom") ⟨"GET", ⟨[]⟩, "/http://example.com/x", "", none⟩).1.headers.get
      "Access-Control-Allow-Origin" = some "*" :=
  ⟨by decide,
   (c7_error_boundary (fun _ => Except.error "boom")
     ⟨"GET", ⟨[]⟩, "/http://example.com/x", "", none⟩ "boom" (by decide) (by decide) rfl).1,
   (c7_error_boundary (fun _ => Except.error "boom")
     ⟨"GET", ⟨[]⟩, "/http://example.com/x", "", none⟩ "boom" (by decide) (by decide) rfl).2.1,
   (c7_error_boundary (fun _ => Except.error "boom")
     ⟨"GET", ⟨[]⟩, "/http://example.com/x", "", none⟩ "boom" (by decide) (by decide) rfl).2.2⟩

/-- Claim C5: in follow mode a successful upstream fetch yields
`X-Final-Url` equal to the terminal URL reported by the fetch
(`response.url`), falling back to the dispatched target URL when the
network layer exposes none (empty string). -/
theorem c5_follow_resolved_url (upstream : FetchRequest → Except String FetchResponse)
    (req : Request) (resp : FetchResponse)
    (h1 : req.method ≠ "OPTIONS")
    (h2 : strStarts (candidateTarget req) "http" = true)
    (h3 : isManualMode req = false)
    (h4 : upstream (outboundRequest req) = Except.ok resp) :
    (handle upstream req).1.headers.get "X-Final-Url"
      = some (if resp.url = "" then strippedTarget req else resp.url) := by
  rw [handle_ok upstream req resp h1 h2 h4, h3]
  unfold composeResponse
  rw [if_neg (by simp)]
  show ((baseHeaders resp).set "X-Final-Url" _).get "X-Final-Url" = _
  rw [headers_get_set, if_pos rfl]

/-- Witness for C5: the spec's follow-mode example, upstream ending at
`https://example.com/page/`. -/
theorem c5_follow_resolved_url_witness :
    strStarts (candidateTarget ⟨"GET", ⟨[]⟩, "/https://example.com/page", "", none⟩) "http" = true ∧
    isManualMode ⟨"GET", ⟨[]⟩, "/https://example.com/page", "", none⟩ = false ∧
    (handle (fun _ => Except.ok ⟨200, ⟨[]⟩, "https://example.com/page/", some "B"⟩)
        ⟨"GET", ⟨[]⟩, "/https://example.com/page", "", none⟩).1.headers.get "X-Final-Url"
      = some (if ("https://example.com/page/" : String) = ""
              then strippedTarget ⟨"GET", ⟨[]⟩, "/https://example.com/page", "", none⟩
              else "https://example.com/page/") :=
  ⟨by decide, by decide,
   c5_follow_resolved_url (fun _ => Except.ok ⟨200, ⟨[]⟩, "https://example.com/page/", some "B"⟩)
     ⟨"GET", ⟨[]⟩, "/https://example.com/page", "", none⟩
     ⟨200, ⟨[]⟩, "https://example.com/page/", some "B"⟩
     (by decide) (by decide) (by decide) rfl⟩

/-- Claim C6 (amended): in manual mode, a 3xx upstream response carrying a
non-empty `Location: L` passes through with the same status and body, and
`X-Final-Url` equals `L`; an empty-valued `Location` header is falsy in
the worker's `if (location)` check, so it is treated as if absent. -/
theorem c6_manual_redirect_location (upstream : FetchRequest → Except String FetchResponse)
    (req : Request) (resp : FetchResponse) (loc : String)
    (h1 : req.method ≠ "OPTIONS")
    (h2 : strStarts (candidateTarget req) "http" = true)
    (h3 : isManualMode req = true)
    (h4 : upstream (outboundRequest req) = Except.ok resp)
    (h5 : 300 ≤ resp.status ∧ resp.status < 400)
    (h6 : resp.headers.get "Location" = some loc)
    (h7 : loc ≠ "") :
    (handle upstream req).1.status = resp.status ∧
    (handle upstream req).1.body = resp.body ∧
    (handle upstream req).1.headers.get "X-Final-Url" = some loc := by
  rw [handle_ok upstream req resp h1 h2 h4, h3]
  unfold composeResponse
  rw [if_pos rfl]
  refine ⟨rfl, rfl, ?_⟩
  show (manualHeaders (strippedTarget req) resp).get "X-Final-Url" = some loc
  exact manualHeaders_xfu_location _ resp loc h5 h6 h7

/-- Counterexample to C6 as stated: a manual-mode 302 upstream response
carrying a `Location` header whose value is the empty string `L = ""` (a
legal wire value, for which Fetch's `headers.get` returns `""`) does not
get `X-Final-Url` set to `L`: the worker's `if (location)` truthiness
check skips the set, so the header is absent from the response. -/
theorem c6_counterexample :
    isManualMode ⟨"GET", ⟨[("X-Proxy-Manual-Redirect", "true")]⟩, "/http://example.com/e", "", none⟩
      = true ∧
    (⟨302, ⟨[("Location", "")]⟩, "", some "B"⟩ : FetchResponse).headers.get "Location"
      = some "" ∧
    (handle (fun _ => Except.ok ⟨302, ⟨[("Location", "")]⟩, "", some "B"⟩)
        ⟨"GET", ⟨[("X-Proxy-Manual-Redirect", "true")]⟩, "/http://example.com/e", "", none⟩).1.status
      = 302 ∧
    (handle (fun _ => Except.ok ⟨302, ⟨[("Location", "")]⟩, "", some "B"⟩)
        ⟨"GET", ⟨[("X-Proxy-Manual-Redirect", "true")]⟩, "/http://example.com/e", "", none⟩).1.headers.get
      "X-Final-Url" = none := by
  decide

/-- Witness for C6: the spec's manual-mode example, upstream 302 with
`Location: https://example.com/final`. -/
theorem c6_manual_redirect_location_witness :
    isManualMode
      ⟨"GET", ⟨[("X-Proxy-Manual-Redirect", "true")]⟩, "/https://example.com/redirect", "", none⟩
      = true ∧
    (⟨302, ⟨[("Location", "https://example.com/final")]⟩, "", some "B"⟩
        : FetchResponse).headers.get "Location" = some "https://example.com/final" ∧
    (handle (fun _ => Except.ok ⟨302, ⟨[("Location", "https://example.com/final")]⟩, "", some "B"⟩)
        ⟨"GET", ⟨[("X-Proxy-Manual-Redirect", "true")]⟩, "/https://example.com/redirect", "", none⟩).1.status
      = 302 ∧
    (handle (fun _ => Except.ok ⟨302, ⟨[("Location", "https://example.com/final")]⟩, "", some "B"⟩)
        ⟨"GET", ⟨[("X-Proxy-Manual-Redirect", "true")]⟩, "/https://example.com/redirect", "", none⟩).1.body
      = some "B" ∧
    (handle (fun _ => Except.ok ⟨302, ⟨[("Location", "https://example.com/final")]⟩, "", some "B"⟩)
        ⟨"GET", ⟨[("X-Proxy-Manual-Redirect", "true")]⟩, "/https://example.com/redirect", "", none⟩).1.headers.get
      "X-Final-Url" = some "https://example.com/final" :=
  ⟨by decide, by decide,
   (c6_manual_redirect_location
     (fun _ => Except.ok ⟨302, ⟨[("Location", "https://example.com/final")]⟩, "", some "B"⟩)
     ⟨"GET", ⟨[("X-Proxy-Manual-Redirect", "true")]⟩, "/https://example.com/redirect", "", none⟩
     ⟨302, ⟨[("Location", "https://example.com/final")]⟩, "", some "B"⟩
     "https://example.com/final"
     (by decide) (by decide) (by decide) rfl (by decide) (by decide) (by decide)).1,
   (c6_manual_redirect_location
     (fun _ => Except.ok ⟨302, ⟨[("Location", "https://example.com/final")]⟩, "", some "B"⟩)
     ⟨"GET", ⟨[("X-Proxy-Manual-Redirect", "true")]⟩, "/https://example.com/redirect", "", none⟩
     ⟨302, ⟨[("Location", "https://example.com/final")]⟩, "", some "B"⟩
     "https://example.com/final"
     (by decide) (by decide) (by decide) rfl (by decide) (by decide) (by decide)).2.1,
   (c6_manual_redirect_location
     (fun _ => Except.ok ⟨302, ⟨[("Location", "https://example.com/final")]⟩, "", some "B"⟩)
     ⟨"GET", ⟨[("X-Proxy-Manual-Redirect", "true")]⟩, "/https://example.com/redirect", "", none⟩
     ⟨302, ⟨[("Location", "https://example.com/final")]⟩, "", some "B"⟩
     "https://example.com/final"
     (by decide) (by decide) (by decide) rfl (by decide) (by decide) (by decide)).2.2⟩

/-- Claim C2 (amended): in manual mode with a successful upstream fetch,
a non-3xx response gets `X-Final-Url` set to the dispatched target URL;
but a 3xx response without a `Location` header leaves `X-Final-Url`
untouched (the handler sets nothing, so the header holds whatever the
upstream response itself carried, typically nothing). -/
theorem c2_manual_resolved_url (upstream : FetchRequest → Except String FetchResponse)
    (req : Request) (resp : FetchResponse)
    (h1 : req.method ≠ "OPTIONS")
    (h2 : strStarts (candidateTarget req) "http" = true)
    (h3 : isManualMode req = true)
    (h4 : upstream (outboundRequest req) = Except.ok resp) :
    (¬ (300 ≤ resp.status ∧ resp.status < 400) →
      (handle upstream req).1.headers.get "X-Final-Url" = some (strippedTarget req)) ∧
    (300 ≤ resp.status ∧ resp.status < 400 → resp.headers.get "Location" = none →
      (handle upstream req).1.headers.get "X-Final-Url" = resp.headers.get "X-Final-Url") := by
  rw [handle_ok upstream req resp h1 h2 h4, h3]
  unfold composeResponse
  rw [if_pos rfl]
  constructor
  · intro hnr
    show (manualHeaders (strippedTarget req) resp).get "X-Final-Url" = _
    exact manualHeaders_xfu_non3xx _ resp hnr
  · intro hr hloc
    show (manualHeaders (strippedTarget req) resp).get "X-Final-Url" = _
    exact manualHeaders_xfu_noloc _ resp hr hloc

/-- Witness for C2 (amended) at a concrete manual-mode request with a 200
(non-3xx) upstream response: `X-Final-Url` is the dispatched target. -/
theorem c2_manual_resolved_url_witness :
    isManualMode
      ⟨"GET", ⟨[("X-Proxy-Manual-Redirect", "true")]⟩, "/http://example.com/p", "", none⟩ = true ∧
    (handle (fun _ => Except.ok ⟨200, ⟨[]⟩, "", some "B"⟩)
        ⟨"GET", ⟨[("X-Proxy-Manual-Redirect", "true")]⟩, "/http://example.com/p", "", none⟩).1.headers.get
      "X-Final-Url"
      = some (strippedTarget
          ⟨"GET", ⟨[("X-Proxy-Manual-Redirect", "true")]⟩, "/http://example.com/p", "", none⟩) :=
  ⟨by decide,
   (c2_manual_resolved_url (fun _ => Except.ok ⟨200, ⟨[]⟩, "", some "B"⟩)
     ⟨"GET", ⟨[("X-Proxy-Manual-Redirect", "true")]⟩, "/http://example.com/p", "", none⟩
     ⟨200, ⟨[]⟩, "", some "B"⟩ (by decide) (by decide) (by decide) rfl).1 (by decide)⟩

/-- Counterexample to C2 as stated: in manual mode a 302 upstream response
with no `Location` header yields a response in which `X-Final-Url` is not
set at all, rather than being set to the target URL. -/
theorem c2_counterexample :
    isManualMode ⟨"GET", ⟨[("X-Proxy-Manual-Redirect", "true")]⟩, "/http://example.com/r", "", none⟩
      = true ∧
    (⟨302, ⟨[]⟩, "", none⟩ : FetchResponse).headers.get "Location" = none ∧
    (handle (fun _ => Except.ok ⟨302, ⟨[]⟩, "", none⟩)
        ⟨"GET", ⟨[("X-Proxy-Manual-Redirect", "true")]⟩, "/http://example.com/r", "", none⟩).1.status
      = 302 ∧
    (handle (fun _ => Except.ok ⟨302, ⟨[]⟩, "", none⟩)
        ⟨"GET", ⟨[("X-Proxy-Manual-Redirect", "true")]⟩, "/http://example.com/r", "", none⟩).1.headers.get
      "X-Final-Url" = none := by
  decide

/-- Claim C1 (amended): when the candidate target contains the reserved
parameter marker and re-parses as a URL, the URL dispatched upstream is the
re-serialization of the candidate with every `__proxy_redirect_mode` query
pair deleted (so the parameter no longer occurs in its query); when
re-parsing fails the candidate is dispatched unmodified, parameter
included. -/
theorem c1_strip_reserved_param (upstream : FetchRequest → Except String FetchResponse)
    (req : Request) (uo : URL)
    (h1 : req.method ≠ "OPTIONS")
    (h2 : strStarts (candidateTarget req) "http" = true)
    (h3 : strIncludes (candidateTarget req) modeParamMarker = true)
    (h4 : URL.parse (candidateTarget req) = some uo) :
    (handle upstream req).2 = some (outboundRequest req) ∧
    (outboundRequest req).url = (uo.deleteParam modeParamName).render ∧
    ∀ p ∈ (uo.deleteParam modeParamName).query, p.1 ≠ modeParamName := by
  refine ⟨handle_dispatches upstream req h1 h2, ?_, ?_⟩
  · show strippedTarget req = (uo.deleteParam modeParamName).render
    unfold strippedTarget
    simp [h3, h4]
  · intro p hp
    exact removeParam_ne modeParamName uo.query p hp

/-- Witness for C1 (amended): the candidate
`http://example.com/a?x=1&__proxy_redirect_mode=manual` re-parses, and the
dispatched URL is the reserialization without the reserved parameter. -/
theorem c1_strip_reserved_param_witness :
    strIncludes (candidateTarget
        ⟨"GET", ⟨[]⟩, "/http://example.com/a", "?x=1&__proxy_redirect_mode=manual", none⟩)
      modeParamMarker = true ∧
    URL.parse (candidateTarget
        ⟨"GET", ⟨[]⟩, "/http://example.com/a", "?x=1&__proxy_redirect_mode=manual", none⟩)
      = some ⟨"http", "example.com/a", [("x", "1"), ("__proxy_redirect_mode", "manual")], none⟩ ∧
    (handle (fun _ => Except.error "net")
        ⟨"GET", ⟨[]⟩, "/http://example.com/a", "?x=1&__proxy_redirect_mode=manual", none⟩).2
      = some (outboundRequest
          ⟨"GET", ⟨[]⟩, "/http://example.com/a", "?x=1&__proxy_redirect_mode=manual", none⟩) ∧
    (outboundRequest
        ⟨"GET", ⟨[]⟩, "/http://example.com/a", "?x=1&__proxy_redirect_mode=manual", none⟩).url
      = ((⟨"http", "example.com/a", [("x", "1"), ("__proxy_redirect_mode", "manual")], none⟩
            : URL).deleteParam modeParamName).render :=
  ⟨by decide, by decide,
   (c1_strip_reserved_param (fun _ => Except.error "net")
      ⟨"GET", ⟨[]⟩, "/http://example.com/a", "?x=1&__proxy_redirect_mode=manual", none⟩
      ⟨"http", "example.com/a", [("x", "1"), ("__proxy_redirect_mode", "manual")], none⟩
      (by decide) (by decide) (by decide) (by decide)).1,
   (c1_strip_reserved_param (fun _ => Except.error "net")
      ⟨"GET", ⟨[]⟩, "/http://example.com/a", "?x=1&__proxy_redirect_mode=manual", none⟩
      ⟨"http", "example.com/a", [("x", "1"), ("__proxy_redirect_mode", "manual")], none⟩
      (by decide) (by decide) (by decide) (by decide)).2.1⟩

/-- Counterexample to C1 as stated: the candidate
`http?__proxy_redirect_mode=manual` passes the prefix check and contains
the reserved parameter, but is not re-parseable as a URL (`new URL`
throws: no scheme delimiter), so the parameter-stripping step is silently
skipped and the URL dispatched upstream still contains the parameter. -/
theorem c1_counterexample :
    strIncludes (candidateTarget ⟨"GET", ⟨[]⟩, "/http", "?__proxy_redirect_mode=manual", none⟩)
      modeParamMarker = true ∧
    URL.parse (candidateTarget ⟨"GET", ⟨[]⟩, "/http", "?__proxy_redirect_mode=manual", none⟩)
      = none ∧
    (handle (fun _ => Except.error "net")
        ⟨"GET", ⟨[]⟩, "/http", "?__proxy_redirect_mode=manual", none⟩).2
      = some (outboundRequest ⟨"GET", ⟨[]⟩, "/http", "?__proxy_redirect_mode=manual", none⟩) ∧
    (outboundRequest ⟨"GET", ⟨[]⟩, "/http", "?__proxy_redirect_mode=manual", none⟩).url
      = "http?__proxy_redirect_mode=manual" ∧
    strIncludes (outboundRequest
        ⟨"GET", ⟨[]⟩, "/http", "?__proxy_redirect_mode=manual", none⟩).url
      modeParamMarker = true := by
  decide

/-- Claim C3 (amended): the outbound upstream request uses the inbound
method and carries exactly the fixed Googlebot user-agent header; the
inbound body is never forwarded (worker.js builds its fetch options
without a body). -/
theorem c3_outbound_request_shape (upstream : FetchRequest → Except String FetchResponse)
    (req : Request)
    (h1 : req.method ≠ "OPTIONS")
    (h2 : strStarts (candidateTarget req) "http" = true) :
    (handle upstream req).2 = some (outboundRequest req) ∧
    (outboundRequest req).method = req.method ∧
    (outboundRequest req).headers = [("User-Agent", googlebotUA)] ∧
    (outboundRequest req).body = none :=
  ⟨handle_dispatches upstream req h1 h2, rfl, rfl, rfl⟩

/-- Witness for C3 (amended) at a concrete POST request. -/
theorem c3_outbound_request_shape_witness :
    (handle (fun _ => Except.error "net")
        ⟨"POST", ⟨[]⟩, "/http://example.com/post", "", some "payload"⟩).2
      = some (outboundRequest ⟨"POST", ⟨[]⟩, "/http://example.com/post", "", some "payload"⟩) ∧
    (outboundRequest ⟨"POST", ⟨[]⟩, "/http://example.com/post", "", some "payload"⟩).method
      = (⟨"POST", ⟨[]⟩, "/http://example.com/post", "", some "payload"⟩ : Request).method ∧
    (outboundRequest ⟨"POST", ⟨[]⟩, "/http://example.com/post", "", some "payload"⟩).headers
      = [("User-Agent", googlebotUA)] ∧
    (outboundRequest ⟨"POST", ⟨[]⟩, "/http://example.com/post", "", some "payload"⟩).body = none :=
  c3_outbound_request_shape (fun _ => Except.error "net")
    ⟨"POST", ⟨[]⟩, "/http://example.com/post", "", some "payload"⟩ (by decide) (by decide)

/-- Counterexample to C3 as stated: a POST request carrying the body
`payload` is dispatched upstream with no body at all. -/
theorem c3_counterexample :
    (⟨"POST", ⟨[]⟩, "/http://example.com/post", "", some "payload"⟩ : Request).body
      = some "payload" ∧
    (handle (fun _ => Except.error "net")
        ⟨"POST", ⟨[]⟩, "/http://example.com/post", "", some "payload"⟩).2
      = some (outboundRequest ⟨"POST", ⟨[]⟩, "/http://example.com/post", "", some "payload"⟩) ∧
    (outboundRequest ⟨"POST", ⟨[]⟩, "/http://example.com/post", "", some "payload"⟩).body
      = none := by
  decide

/-- Claim C10: two non-`OPTIONS` requests agreeing on method, URL (pathname
and search) and the `X-Proxy-Manual-Redirect` header — whatever their other
headers or bodies — produce identical outbound requests, whose header list
is exactly the fixed User-Agent and whose body is empty. -/
theorem c10_outbound_independence (u1 u2 : FetchRequest → Except String FetchResponse)
    (r s : Request)
    (h0 : r.method ≠ "OPTIONS")
    (hm : r.method = s.method)
    (hp : r.pathname = s.pathname)
    (hq : r.search = s.search)
    (hh : r.headers.get "X-Proxy-Manual-Redirect" = s.headers.get "X-Proxy-Manual-Redirect") :
    outboundRequest r = outboundRequest s ∧
    (handle u1 r).2 = (handle u2 s).2 ∧
    (outboundRequest r).headers = [("User-Agent", googlebotUA)] ∧
    (outboundRequest r).body = none := by
  have hc : candidateTarget r = candidateTarget s := by
    unfold candidateTarget
    rw [hp, hq]
  have him : isManualMode r = isManualMode s := by
    unfold isManualMode
    rw [hh, hq]
  have hst : strippedTarget r = strippedTarget s := by
    unfold strippedTarget
    rw [hc]
  have hor : outboundRequest r = outboundRequest s := by
    unfold outboundRequest
    rw [hst, hm, him]
  have h0s : s.method ≠ "OPTIONS" := fun he => h0 (hm.trans he)
  refine ⟨hor, ?_, rfl, rfl⟩
  by_cases h2 : strStarts (candidateTarget s) "http" = true
  · have h2r : strStarts (candidateTarget r) "http" = true := by
      rw [hc]; exact h2
    rw [handle_dispatches u1 r h0 h2r, handle_dispatches u2 s h0s h2, hor]
  · have h2f : strStarts (candidateTarget s) "http" = false := by
      cases hb : strStarts (candidateTarget s) "http"
      · rfl
      · exact absurd hb h2
    have h2fr : strStarts (candidateTarget r) "http" = false := by
      rw [hc]; exact h2f
    unfold handle
    rw [if_neg h0, if_neg h0s, if_pos h2fr, if_pos h2f]

/-- Witness for C10: two POST requests to the same URL in the same mode,
one with an Authorization header and a body, the other with a Cookie header
and no body, produce the same outbound request. -/
theorem c10_outbound_independence_witness :
    outboundRequest
        ⟨"POST", ⟨[("Authorization", "secret"), ("X-Proxy-Manual-Redirect", "true")]⟩,
         "/http://example.com/x", "", some "body1"⟩
      = outboundRequest
          ⟨"POST", ⟨[("X-Proxy-Manual-Redirect", "true"), ("Cookie", "c=1")]⟩,
           "/http://example.com/x", "", none⟩ ∧
    (handle (fun _ => Except.error "a")
        ⟨"POST", ⟨[("Authorization", "secret"), ("X-Proxy-Manual-Redirect", "true")]⟩,
         "/http://example.com/x", "", some "body1"⟩).2
      = (handle (fun _ => Except.error "b")
          ⟨"POST", ⟨[("X-Proxy-Manual-Redirect", "true"), ("Cookie", "c=1")]⟩,
           "/http://example.com/x", "", none⟩).2 ∧
    (outboundRequest
        ⟨"POST", ⟨[("Authorization", "secret"), ("X-Proxy-Manual-Redirect", "true")]⟩,
         "/http://example.com/x", "", some "body1"⟩).headers
      = [("User-Agent", googlebotUA)] ∧
    (outboundRequest
        ⟨"POST", ⟨[("Authorization", "secret"), ("X-Proxy-Manual-Redirect", "true")]⟩,
         "/http://example.com/x", "", some "body1"⟩).body = none :=
  c10_outbound_independence (fun _ => Except.error "a") (fun _ => Except.error "b")
    ⟨"POST", ⟨[("Authorization", "secret"), ("X-Proxy-Manual-Redirect", "true")]⟩,
     "/http://example.com/x", "", some "body1"⟩
    ⟨"POST", ⟨[("X-Proxy-Manual-Redirect", "true"), ("Cookie", "c=1")]⟩,
     "/http://example.com/x", "", none⟩
    (by decide) rfl rfl rfl (by decide)

end GeminiGrounding
